import Mathlib

/-!
# Verification of the `MethodOverrideMiddleware` WSGI middleware

Shallow embedding of `src/wsgi_method_override/wsgi_method_override.py`
(class `MethodOverrideMiddleware`) in Lean 4, together with theorems that
settle the specification's claims.

Modelling conventions:
* A WSGI environ is a structure holding the keys the middleware touches
  (`REQUEST_METHOD`, `CONTENT_LENGTH`, `CONTENT_TYPE`, `wsgi.input`) plus an
  association list for the HTTP headers visible through `request.headers`.
* The request body stream (`wsgi.input`) is a list of characters plus a read
  cursor; reading advances the cursor and nothing in the middleware rewinds it.
* The werkzeug `Request` object is an external collaborator; the parts the
  middleware uses are modelled from werkzeug's documented behaviour:
  `request.form` parses the body only when the mimetype is
  `application/x-www-form-urlencoded`, reading at most `CONTENT_LENGTH` bytes
  from `wsgi.input` through a limited stream and *not* rewinding it
  (absent or unparseable `CONTENT_LENGTH` reads nothing); `form.get(k, d)`
  returns the first value of `k` or `d`; `k in form` is key membership;
  `headers.get(name, "")` returns the header value or `""`.
  Percent/plus-decoding of urlencoded payloads is not modelled: no claim
  depends on escaped payloads and every concrete input used below is
  escape-free.
* Python's `str.strip()`, `str.upper()`, `str.lower()` are modelled on the
  character list of the string (ASCII scope, matching HTTP method tokens).
* Python truthiness of strings/optional strings/lists is modelled explicitly.
-/

/-! ## Python string primitives -/

/-- Model of Python `str.upper()` (ASCII scope). -/
def pyUpper (s : String) : String :=
  String.mk (s.data.map Char.toUpper)

/-- Model of Python `str.lower()` (ASCII scope). -/
def pyLower (s : String) : String :=
  String.mk (s.data.map Char.toLower)

/-- Strip leading and trailing whitespace from a character list. -/
def stripChars (l : List Char) : List Char :=
  ((l.dropWhile Char.isWhitespace).reverse.dropWhile Char.isWhitespace).reverse

/-- Model of Python `str.strip()`. -/
def pyStrip (s : String) : String :=
  String.mk (stripChars s.data)

/-- Python truthiness of a string: non-empty. -/
def strTruthy (s : String) : Bool :=
  !s.data.isEmpty

/-- Python truthiness of an `Optional[str]`: not `None` and non-empty. -/
def optStrTruthy : Option String → Bool
  | none => false
  | some s => strTruthy s

/-! ## Configuration (`MethodOverrideMiddleware.__init__`) -/

/-- `DEFAULT_ALLOWED_METHODS` (source lines 22–24); the frozenset is modelled
as a list, membership being all the middleware uses. -/
def DEFAULT_ALLOWED_METHODS : List String :=
  ["GET", "POST", "PUT", "PATCH", "DELETE", "HEAD", "OPTIONS"]

/-- `DEFAULT_BODYLESS_METHODS` (source lines 26–28). -/
def DEFAULT_BODYLESS_METHODS : List String :=
  ["GET", "HEAD", "OPTIONS", "DELETE"]

/-- The middleware's configuration fields set by `__init__`. -/
structure Config where
  allowedMethods : List String
  bodylessMethods : List String
  overrideParam : String
  headerOverride : Option String
  deriving Repr, DecidableEq

/-- Python `x or d` for an optional collection argument: `None` and the empty
collection are falsy and select the default. -/
def pyOrDefault (x : Option (List String)) (d : List String) : List String :=
  match x with
  | none => d
  | some l => if l.isEmpty then d else l

/-- `MethodOverrideMiddleware.__init__` (source lines 30–50): both method sets
are uppercased, falling back to the defaults when the argument is `None` or
empty. -/
def initConfig (allowed_methods bodyless_methods : Option (List String))
    (override_param : String) (header_override : Option String) : Config :=
  { allowedMethods :=
      (pyOrDefault allowed_methods DEFAULT_ALLOWED_METHODS).map pyUpper
    bodylessMethods :=
      (pyOrDefault bodyless_methods DEFAULT_BODYLESS_METHODS).map pyUpper
    overrideParam := override_param
    headerOverride := header_override }

/-- The configuration produced by `MethodOverrideMiddleware(app)` with all
keyword arguments left at their defaults. -/
def defaultConfig : Config :=
  initConfig none none "_method" (some "X-HTTP-Method-Override")

/-! ## Validator (`_is_override_allowed`, source lines 99–119) -/

/-- `_is_override_allowed`: deny unless the original method is exactly `POST`,
the override target is in the allowed set, and the override is not a no-op. -/
def is_override_allowed (cfg : Config) (original_method override_method : String) : Bool :=
  if original_method ≠ "POST" then
    false
  else if ¬ cfg.allowedMethods.contains override_method then
    false
  else if original_method = override_method then
    false
  else
    true

/-! ## The WSGI environ and the body stream -/

/-- The `wsgi.input` stream: the body's characters and the read cursor.
Reading starts at `pos` and advances it; nothing in the middleware resets it. -/
structure InputStream where
  data : List Char
  pos : Nat
  deriving Repr, DecidableEq

/-- What a full read of the stream returns from its current cursor. -/
def InputStream.readRemaining (s : InputStream) : List Char :=
  s.data.drop s.pos

/-- The WSGI environ, restricted to the keys the middleware reads or writes.
`requestMethod`, `contentLength`, `contentType` are `none` when the key is
absent from the environ dict; `headers` is the header mapping that werkzeug's
`request.headers` exposes, keyed by canonical header name. -/
structure Environ where
  requestMethod : Option String
  contentLength : Option String
  contentType : Option String
  input : InputStream
  headers : List (String × String)
  deriving Repr, DecidableEq

/-! ## Model of the werkzeug `Request` interface -/

/-- Numeric value of a digit string. -/
def digitsVal (l : List Char) : Nat :=
  l.foldl (fun acc c => acc * 10 + (c.toNat - 48)) 0

/-- werkzeug's reading of `CONTENT_LENGTH`: a non-negative integer, `none`
when the key is absent or unparseable. -/
def contentLengthNat (e : Environ) : Option Nat :=
  match e.contentLength with
  | none => none
  | some s =>
    if !s.data.isEmpty && s.data.all Char.isDigit then some (digitsVal s.data)
    else none

/-- The mimetype of the request: the content type up to the first `;`,
stripped and lowercased (werkzeug `request.mimetype`); `""` when absent. -/
def mimetypeOf (e : Environ) : String :=
  match e.contentType with
  | none => ""
  | some s => pyLower (pyStrip (String.mk (s.data.takeWhile (fun c => c ≠ ';'))))

/-- Whether accessing `request.form` parses the body: werkzeug's form parser
handles `application/x-www-form-urlencoded` (multipart is not modelled). -/
def formParses (e : Environ) : Bool :=
  mimetypeOf e = "application/x-www-form-urlencoded"

/-- How many characters a form-parsing read consumes: werkzeug reads through a
stream limited to `CONTENT_LENGTH` (no usable length reads nothing), and at
most what remains in `wsgi.input`. -/
def formReadCount (e : Environ) : Nat :=
  min ((contentLengthNat e).getD 0) (e.input.data.length - e.input.pos)

/-- Split a character list on `&` separators. -/
def splitAmp : List Char → List Char → List (List Char)
  | [], acc => [acc.reverse]
  | c :: rest, acc =>
    if c = '&' then acc.reverse :: splitAmp rest [] else splitAmp rest (c :: acc)

/-- One `key=value` pair (value empty when `=` is absent). -/
def parsePair (l : List Char) : String × String :=
  (String.mk (l.takeWhile (fun c => c ≠ '=')),
   String.mk ((l.dropWhile (fun c => c ≠ '=')).drop 1))

/-- Parse an urlencoded payload into its (key, value) pairs in order; empty
segments are dropped. Percent/plus-decoding is not modelled (see header). -/
def parseUrlencoded (l : List Char) : List (String × String) :=
  (splitAmp l []).filterMap fun seg =>
    if seg.isEmpty then none else some (parsePair seg)

/-- `request.form` as a multi-dict snapshot: the parsed pairs when the
mimetype is form-urlencoded, the empty dict otherwise. `form.get` takes the
first value of a key, which `List.lookup` provides. -/
def requestForm (e : Environ) : List (String × String) :=
  if formParses e then
    parseUrlencoded ((e.input.data.drop e.input.pos).take (formReadCount e))
  else []

/-- The state of the environ after `request.form` has been accessed: the form
parser consumed `formReadCount` characters of `wsgi.input` and did not rewind
the cursor; everything else is untouched. -/
def afterFormAccess (e : Environ) : Environ :=
  if formParses e then
    { e with input := { e.input with pos := e.input.pos + formReadCount e } }
  else e

/-- `request.headers.get(name, "")`. -/
def headersGet (e : Environ) (name : String) : String :=
  (e.headers.lookup name).getD ""

/-! ## Hint extraction (`_get_override_method`, source lines 82–97) -/

/-- The header half of `_get_override_method` (source lines 90–95): when
`self.header_override` is truthy, the stripped uppercased header value if
non-empty. -/
def header_lookup_step (cfg : Config) (e : Environ) : Option String :=
  if optStrTruthy cfg.headerOverride then
    let method := pyUpper (pyStrip (headersGet e (cfg.headerOverride.getD "")))
    if strTruthy method then some method else none
  else none

/-- `_get_override_method`: the form parameter's stripped uppercased first
value when present and non-empty, else the header path, else `None`.
(The value returned; the stream side effect of touching `request.form` is
`afterFormAccess`.) -/
def get_override_method (cfg : Config) (e : Environ) : Option String :=
  let form := requestForm e
  let step1 : Option String :=
    if (form.lookup cfg.overrideParam).isSome then
      let method := pyUpper (pyStrip ((form.lookup cfg.overrideParam).getD ""))
      if strTruthy method then some method else none
    else none
  match step1 with
  | some method => some method
  | none => header_lookup_step cfg e

/-! ## The pipeline (`__call__`, source lines 57–80)

In the Python, everything up to and including the environ mutation sits in a
`try` block whose `except Exception` only logs; the downstream call
`self.app(environ, start_response)` is outside the `try` and is the single
`return`. Extraction is the only step that touches werkzeug and hence the
only realistic fault point, so extraction is modelled as a function that
returns the post-extraction environ (in-place stream effects persist past the
`except`) together with either the extracted hint or a fault. -/

/-- An extraction step: post-state of the environ, and either the optional
hint or a fault. -/
abbrev Extractor := Environ → Environ × Except Unit (Option String)

/-- The middleware's real extraction step: `request.form` is touched
unconditionally (line 85), so the stream effect is `afterFormAccess`; the
hint is `get_override_method` and no fault is raised. -/
def realExtractor (cfg : Config) : Extractor := fun e =>
  (afterFormAccess e, Except.ok (get_override_method cfg e))

/-- The environ mutation on an allowed override (source lines 71–75):
`REQUEST_METHOD` is set; for a bodyless target, `CONTENT_LENGTH` becomes
`"0"` and `CONTENT_TYPE` is popped. -/
def apply_override (cfg : Config) (override_method : String) (e : Environ) : Environ :=
  let e1 := { e with requestMethod := some override_method }
  if cfg.bodylessMethods.contains override_method then
    { e1 with contentLength := some "0", contentType := none }
  else e1

/-- The environ as the downstream application receives it: the `try` block of
`__call__` run over an extraction step. A fault leaves the (post-extraction)
environ as it stands; a denied or absent hint likewise. -/
def middlewareEnviron (cfg : Config) (ext : Extractor) (e : Environ) : Environ :=
  let original_method := e.requestMethod.getD "GET"
  match ext e with
  | (e1, Except.ok (some m)) =>
    if is_override_allowed cfg original_method m then apply_override cfg m e1 else e1
  | (e1, Except.ok none) => e1
  | (e1, Except.error _) => e1

/-- `__call__`: `return self.app(environ, start_response)` after the guarded
pipeline — one downstream invocation, its value returned. -/
def wsgiCall {σ α : Type} (app : Environ → σ → α) (start_response : σ)
    (cfg : Config) (ext : Extractor) (e : Environ) : α :=
  app (middlewareEnviron cfg ext e) start_response

/-- The full pipeline over the real extractor: the environ the downstream
application observes for an incoming environ `e`. -/
def processEnviron (cfg : Config) (e : Environ) : Environ :=
  middlewareEnviron cfg (realExtractor cfg) e

/-! ## Header extraction helper -/

/-- Whether a raw environ key is a header entry: it starts with `HTTP_`. -/
def isHeaderKey (raw : String) : Bool :=
  raw.data.take 5 = ['H', 'T', 'T', 'P', '_']

/-- Normalize one raw environ key: strip the `HTTP_` prefix, uppercase, and
turn underscores into hyphens. -/
def normalizeHeaderName (raw : String) : String :=
  String.mk ((raw.data.drop 5).map (fun c => if c = '_' then '-' else c.toUpper))

/-- Modelled from the spec: the header extraction helper (`_get_headers`) is
absent from the source file — only its tests call it — so it is modelled from
the spec's words: map each `HTTP_`-prefixed environ key to its normalized
header name and value, excluding every non-`HTTP_` (non-header) environ
entry. The raw environ is an association list of environ keys to values. -/
def get_headers (environ : List (String × String)) : List (String × String) :=
  environ.filterMap fun kv =>
    if isHeaderKey kv.1 then some (normalizeHeaderName kv.1, kv.2)
    else none

/-! ## Spec-shaped extraction (for the refinement claim about extraction) -/

/-- The extraction contract as the spec words it, for comparison with
`get_override_method`: step 1 takes the form parameter's first value when the
body is form-encoded and parseable, strips and uppercases it, and returns it
when non-empty; step 2, reached only when step 1 yields nothing, does the
same with the configured override header when that header name is set;
otherwise no override. -/
def extractOverrideSpec (cfg : Config) (e : Environ) : Option String :=
  let fromForm : Option String :=
    match (requestForm e).lookup cfg.overrideParam with
    | some v =>
      let m := pyUpper (pyStrip v)
      if strTruthy m then some m else none
    | none => none
  match fromForm with
  | some m => some m
  | none =>
    match cfg.headerOverride with
    | some h =>
      if strTruthy h then
        let m := pyUpper (pyStrip (headersGet e h))
        if strTruthy m then some m else none
      else none
    | none => none

/-! ## Concrete requests used to instantiate the theorems -/

/-- A POST with a form-urlencoded body requesting a `PUT` override
(spec scenario A: body `_method=PUT&name=x`). -/
def envFormPut : Environ :=
  { requestMethod := some "POST"
    contentLength := some "18"
    contentType := some "application/x-www-form-urlencoded"
    input := { data := "_method=PUT&name=x".data, pos := 0 }
    headers := [] }

/-- A POST with no form body and an `X-HTTP-Method-Override: PATCH` header
(spec scenario B). -/
def envHeaderPatch : Environ :=
  { requestMethod := some "POST"
    contentLength := none
    contentType := none
    input := { data := [], pos := 0 }
    headers := [("X-HTTP-Method-Override", "PATCH")] }

/-- A POST whose form carries an empty `_method` value next to an override
header (the empty-value fallthrough case). -/
def envEmptyFormValue : Environ :=
  { requestMethod := some "POST"
    contentLength := some "18"
    contentType := some "application/x-www-form-urlencoded"
    input := { data := "_method=&name=test".data, pos := 0 }
    headers := [("X-HTTP-Method-Override", "PATCH")] }

/-- A GET carrying an override header requesting `DELETE`
(spec scenario D: must be denied). -/
def envGetHeaderDelete : Environ :=
  { requestMethod := some "GET"
    contentLength := none
    contentType := none
    input := { data := [], pos := 0 }
    headers := [("X-HTTP-Method-Override", "DELETE")] }

/-- An environ with no `REQUEST_METHOD` key at all, still carrying an
override header. -/
def envNoMethod : Environ :=
  { requestMethod := none
    contentLength := none
    contentType := none
    input := { data := [], pos := 0 }
    headers := [("X-HTTP-Method-Override", "DELETE")] }

/-- The raw environ of the repository's header-extraction test. -/
def rawTestEnviron : List (String × String) :=
  [("HTTP_X_HTTP_METHOD_OVERRIDE", "PUT"),
   ("HTTP_CONTENT_TYPE", "application/json"),
   ("HTTP_USER_AGENT", "TestAgent/1.0"),
   ("REQUEST_METHOD", "POST"),
   ("PATH_INFO", "/test")]

/-- An extraction step that always faults, for exercising the pipeline's
fault isolation. -/
def faultingExtractor : Extractor := fun e => (e, Except.error ())

/-! ## Helper lemmas -/

theorem charOfNat_toNat {n : Nat} (h : n.isValidChar) : (Char.ofNat n).toNat = n := by
  simp only [Char.ofNat, dif_pos h, Char.ofNatAux, Char.toNat, UInt32.toNat]
  simp [BitVec.toNat_ofNatLt]

theorem charToUpper_idem (c : Char) : c.toUpper.toUpper = c.toUpper := by
  unfold Char.toUpper
  by_cases h : c.toNat ≥ 97 ∧ c.toNat ≤ 122
  · rw [if_pos h, if_neg]
    rw [charOfNat_toNat (Or.inl (by omega))]
    omega
  · rw [if_neg h, if_neg h]

theorem mapToUpper_idem (l : List Char) :
    (l.map Char.toUpper).map Char.toUpper = l.map Char.toUpper := by
  induction l with
  | nil => rfl
  | cons c t ih => simp only [List.map_cons, ih, charToUpper_idem]

theorem pyUpper_idem (s : String) : pyUpper (pyUpper s) = pyUpper s := by
  unfold pyUpper
  congr 1
  exact mapToUpper_idem s.data

theorem afterFormAccess_requestMethod (e : Environ) :
    (afterFormAccess e).requestMethod = e.requestMethod := by
  unfold afterFormAccess
  split <;> rfl

theorem afterFormAccess_contentLength (e : Environ) :
    (afterFormAccess e).contentLength = e.contentLength := by
  unfold afterFormAccess
  split <;> rfl

theorem afterFormAccess_contentType (e : Environ) :
    (afterFormAccess e).contentType = e.contentType := by
  unfold afterFormAccess
  split <;> rfl

theorem afterFormAccess_inputData (e : Environ) :
    (afterFormAccess e).input.data = e.input.data := by
  unfold afterFormAccess
  split <;> rfl

theorem apply_override_requestMethod (cfg : Config) (m : String) (e : Environ) :
    (apply_override cfg m e).requestMethod = some m := by
  unfold apply_override
  split <;> rfl

/-! ## Claims -/

/-- C2. The validator returns `true` iff the original method is exactly
`"POST"`, the candidate is a member of the configured allowed set, and the
candidate differs from the original; in particular, with the default
configuration, overriding `POST` to `DELETE` is allowed. -/
theorem C2_validator_characterization :
    (∀ (cfg : Config) (original_method override_method : String),
      is_override_allowed cfg original_method override_method = true ↔
        (original_method = "POST" ∧
         override_method ∈ cfg.allowedMethods ∧
         override_method ≠ original_method)) ∧
    is_override_allowed defaultConfig "POST" "DELETE" = true := by
  constructor
  · intro cfg original_method override_method
    unfold is_override_allowed
    split_ifs with h1 h2 h3 <;>
      simp_all [List.contains, List.elem_iff]
    tauto
  · decide

/-- Witness for C2 at a concrete input: with the default configuration,
`POST → PUT` satisfies the three conditions and is allowed. -/
theorem C2_validator_characterization_witness :
    is_override_allowed defaultConfig "POST" "PUT" = true :=
  (C2_validator_characterization.1 defaultConfig "POST" "PUT").mpr
    ⟨rfl, by decide, by decide⟩

theorem pyOrDefault_ne_nil (x : Option (List String)) (d : List String)
    (hd : d ≠ []) : pyOrDefault x d ≠ [] := by
  unfold pyOrDefault
  cases x with
  | none => exact hd
  | some l =>
    by_cases h : l.isEmpty
    · simp only [h, if_true]
      exact hd
    · simp only [h, if_false]
      simpa [List.isEmpty_iff] using h

/-- C6. For every constructor input, the resulting allowed and bodyless sets
are non-empty and consist of uppercase members; an empty collection for
either argument falls back to the corresponding default set. -/
theorem C6_config_normalization
    (allowed_methods bodyless_methods : Option (List String))
    (override_param : String) (header_override : Option String) :
    (initConfig allowed_methods bodyless_methods override_param
        header_override).allowedMethods ≠ [] ∧
    (initConfig allowed_methods bodyless_methods override_param
        header_override).bodylessMethods ≠ [] ∧
    (∀ m ∈ (initConfig allowed_methods bodyless_methods override_param
        header_override).allowedMethods, pyUpper m = m) ∧
    (∀ m ∈ (initConfig allowed_methods bodyless_methods override_param
        header_override).bodylessMethods, pyUpper m = m) ∧
    (allowed_methods = some [] →
      (initConfig allowed_methods bodyless_methods override_param
        header_override).allowedMethods = DEFAULT_ALLOWED_METHODS) ∧
    (bodyless_methods = some [] →
      (initConfig allowed_methods bodyless_methods override_param
        header_override).bodylessMethods = DEFAULT_BODYLESS_METHODS) := by
  refine ⟨?_, ?_, ?_, ?_, ?_, ?_⟩
  · simp only [initConfig]
    rw [Ne, List.map_eq_nil_iff]
    exact pyOrDefault_ne_nil _ _ (by decide)
  · simp only [initConfig]
    rw [Ne, List.map_eq_nil_iff]
    exact pyOrDefault_ne_nil _ _ (by decide)
  · intro m hm
    simp only [initConfig, List.mem_map] at hm
    obtain ⟨x, _, rfl⟩ := hm
    exact pyUpper_idem x
  · intro m hm
    simp only [initConfig, List.mem_map] at hm
    obtain ⟨x, _, rfl⟩ := hm
    exact pyUpper_idem x
  · intro h
    subst h
    simp only [initConfig]
    decide
  · intro h
    subst h
    simp only [initConfig]
    decide

/-- Witness for C6 at a concrete input: empty collections for both sets fall
back to the defaults. -/
theorem C6_config_normalization_witness :
    (initConfig (some []) (some []) "_method" none).allowedMethods =
        DEFAULT_ALLOWED_METHODS ∧
    (initConfig (some []) (some []) "_method" none).bodylessMethods =
        DEFAULT_BODYLESS_METHODS :=
  ⟨(C6_config_normalization (some []) (some []) "_method" none).2.2.2.2.1 rfl,
   (C6_config_normalization (some []) (some []) "_method" none).2.2.2.2.2 rfl⟩

/-- C4. Extraction follows the spec's order: the form parameter's stripped,
uppercased first value when form-encoded, parseable, present, and non-empty;
only when the form path yields nothing, the configured override header (when
set) with the same normalization; otherwise no override. The code's
`_get_override_method` equals the spec-shaped contract on every request. -/
theorem C4_extraction_refines_spec (cfg : Config) (e : Environ) :
    get_override_method cfg e = extractOverrideSpec cfg e := by
  unfold get_override_method extractOverrideSpec header_lookup_step
  cases hh : cfg.headerOverride with
  | none =>
    cases h : (requestForm e).lookup cfg.overrideParam <;>
      simp [h, hh, optStrTruthy]
  | some s =>
    cases h : (requestForm e).lookup cfg.overrideParam <;>
      simp [h, hh, optStrTruthy]

/-- C7. When the override form parameter is present but its value strips to
the empty string, extraction falls through to the header lookup instead of
returning an explicit no-override. -/
theorem C7_empty_form_value_falls_through (cfg : Config) (e : Environ) (v : String)
    (h1 : (requestForm e).lookup cfg.overrideParam = some v)
    (h2 : strTruthy (pyUpper (pyStrip v)) = false) :
    get_override_method cfg e = header_lookup_step cfg e := by
  unfold get_override_method
  simp [h1, h2]

/-- Witness for C7 at a concrete input: a POST body `_method=&name=test`
falls through to the `X-HTTP-Method-Override: PATCH` header. -/
theorem C7_empty_form_value_falls_through_witness :
    get_override_method defaultConfig envEmptyFormValue =
      header_lookup_step defaultConfig envEmptyFormValue :=
  C7_empty_form_value_falls_through defaultConfig envEmptyFormValue ""
    (by decide) (by decide)

/-- C3. `__call__` invokes the downstream application exactly once — on the
environ the guarded pipeline produced — and returns its value; an extraction
fault never propagates and leaves the request's method and body metadata as
if no override had been requested. The extraction step is quantified over
any fault behaviour whose in-place effects touch only the body stream, which
is all the real extraction mutates. -/
theorem C3_fault_isolation {σ α : Type} (app : Environ → σ → α) (sr : σ)
    (cfg : Config) (ext : Extractor) (e : Environ)
    (hext : (ext e).1.requestMethod = e.requestMethod ∧
            (ext e).1.contentLength = e.contentLength ∧
            (ext e).1.contentType = e.contentType) :
    wsgiCall app sr cfg ext e = app (middlewareEnviron cfg ext e) sr ∧
    (∀ f : Unit, (ext e).2 = Except.error f →
      (middlewareEnviron cfg ext e).requestMethod = e.requestMethod ∧
      (middlewareEnviron cfg ext e).contentLength = e.contentLength ∧
      (middlewareEnviron cfg ext e).contentType = e.contentType) := by
  constructor
  · rfl
  · intro f hf
    unfold middlewareEnviron
    rcases hp : ext e with ⟨e1, r⟩
    rw [hp] at hf hext
    simp only [hp]
    cases r with
    | ok o => simp at hf
    | error u => exact hext

/-- Witness for C3 at a concrete input: an always-faulting extraction step on
the form-override request still reaches the identity application once and
leaves the method untouched. -/
theorem C3_fault_isolation_witness :
    wsgiCall (fun e _ => e) () defaultConfig faultingExtractor envFormPut =
      middlewareEnviron defaultConfig faultingExtractor envFormPut ∧
    (middlewareEnviron defaultConfig faultingExtractor envFormPut).requestMethod =
      envFormPut.requestMethod :=
  And.intro
    (C3_fault_isolation (fun e _ => e) () defaultConfig faultingExtractor
      envFormPut ⟨rfl, rfl, rfl⟩).1
    ((C3_fault_isolation (fun e _ => e) () defaultConfig faultingExtractor
      envFormPut ⟨rfl, rfl, rfl⟩).2 () rfl).1

theorem processEnviron_denied_preserves (cfg : Config) (e : Environ)
    (h : ∀ m, get_override_method cfg e = some m →
      is_override_allowed cfg (e.requestMethod.getD "GET") m = false) :
    (processEnviron cfg e).requestMethod = e.requestMethod ∧
    (processEnviron cfg e).contentLength = e.contentLength ∧
    (processEnviron cfg e).contentType = e.contentType := by
  unfold processEnviron middlewareEnviron realExtractor
  cases hm : get_override_method cfg e with
  | none =>
    simp [hm, afterFormAccess_requestMethod, afterFormAccess_contentLength,
      afterFormAccess_contentType]
  | some m =>
    have hdeny := h m hm
    simp [hm, hdeny, afterFormAccess_requestMethod, afterFormAccess_contentLength,
      afterFormAccess_contentType]

/-- C9. When no hint is extracted, or the validator denies the candidate, the
request is forwarded with its method, body-length metadata and content-type
metadata all at their original values. -/
theorem C9_denial_leaves_request_untouched (cfg : Config) (e : Environ)
    (h : ∀ m, get_override_method cfg e = some m →
      is_override_allowed cfg (e.requestMethod.getD "GET") m = false) :
    (processEnviron cfg e).requestMethod = e.requestMethod ∧
    (processEnviron cfg e).contentLength = e.contentLength ∧
    (processEnviron cfg e).contentType = e.contentType :=
  processEnviron_denied_preserves cfg e h

/-- Witness for C9 at a concrete input: a GET request with an
`X-HTTP-Method-Override: DELETE` header is denied and forwarded untouched. -/
theorem C9_denial_leaves_request_untouched_witness :
    (processEnviron defaultConfig envGetHeaderDelete).requestMethod =
      envGetHeaderDelete.requestMethod ∧
    (processEnviron defaultConfig envGetHeaderDelete).contentLength =
      envGetHeaderDelete.contentLength ∧
    (processEnviron defaultConfig envGetHeaderDelete).contentType =
      envGetHeaderDelete.contentType := by
  refine C9_denial_leaves_request_untouched defaultConfig envGetHeaderDelete ?_
  intro m hm
  have hs : get_override_method defaultConfig envGetHeaderDelete =
      some "DELETE" := by decide
  rw [hs] at hm
  injection hm with hm'
  subst hm'
  decide

/-- C10. When the environ lacks `REQUEST_METHOD` entirely, the original
method is taken to be `GET`, so the POST-only rule denies every candidate and
the request is forwarded unchanged. -/
theorem C10_missing_request_method (cfg : Config) (e : Environ)
    (h : e.requestMethod = none) :
    (processEnviron cfg e).requestMethod = none ∧
    (processEnviron cfg e).contentLength = e.contentLength ∧
    (processEnviron cfg e).contentType = e.contentType := by
  have hdeny : ∀ m, get_override_method cfg e = some m →
      is_override_allowed cfg (e.requestMethod.getD "GET") m = false := by
    intro m _
    rw [h]
    unfold is_override_allowed
    rw [if_pos]
    decide
  have hpres := processEnviron_denied_preserves cfg e hdeny
  refine ⟨?_, hpres.2.1, hpres.2.2⟩
  rw [hpres.1, h]

/-- Witness for C10 at a concrete input: an environ with no `REQUEST_METHOD`
key and a `DELETE` override header is forwarded unchanged. -/
theorem C10_missing_request_method_witness :
    (processEnviron defaultConfig envNoMethod).requestMethod = none ∧
    (processEnviron defaultConfig envNoMethod).contentLength =
      envNoMethod.contentLength ∧
    (processEnviron defaultConfig envNoMethod).contentType =
      envNoMethod.contentType :=
  C10_missing_request_method defaultConfig envNoMethod rfl

/-- C5. Whenever an override to a new method is applied, the request's method
becomes the new method; if the new method is bodyless the body-length
metadata is set to zero (`CONTENT_LENGTH = "0"`) and the content-type
metadata is removed, and otherwise the body metadata is left untouched; the
body's bytes are never modified. -/
theorem C5_bodyless_metadata (cfg : Config) (e : Environ) (m : String)
    (h1 : get_override_method cfg e = some m)
    (h2 : is_override_allowed cfg (e.requestMethod.getD "GET") m = true) :
    (processEnviron cfg e).requestMethod = some m ∧
    (processEnviron cfg e).contentLength =
      (if cfg.bodylessMethods.contains m then some "0" else e.contentLength) ∧
    (processEnviron cfg e).contentType =
      (if cfg.bodylessMethods.contains m then none else e.contentType) ∧
    (processEnviron cfg e).input.data = e.input.data := by
  unfold processEnviron middlewareEnviron realExtractor
  simp only [h1, h2, if_true]
  unfold apply_override
  by_cases hb : m ∈ cfg.bodylessMethods <;>
    simp [hb, afterFormAccess_contentLength, afterFormAccess_contentType,
      afterFormAccess_inputData]

/-- Witness for C5 at a concrete input: a POST with header override `PATCH`
(not bodyless) keeps its body metadata; its method becomes `PATCH`. -/
theorem C5_bodyless_metadata_witness :
    (processEnviron defaultConfig envHeaderPatch).requestMethod = some "PATCH" ∧
    (processEnviron defaultConfig envHeaderPatch).contentLength =
      (if defaultConfig.bodylessMethods.contains "PATCH" then some "0"
       else envHeaderPatch.contentLength) ∧
    (processEnviron defaultConfig envHeaderPatch).contentType =
      (if defaultConfig.bodylessMethods.contains "PATCH" then none
       else envHeaderPatch.contentType) ∧
    (processEnviron defaultConfig envHeaderPatch).input.data =
      envHeaderPatch.input.data :=
  C5_bodyless_metadata defaultConfig envHeaderPatch "PATCH"
    (by decide) (by decide)

/-- C8 (helper modelled from the spec; see `get_headers`). The helper maps
exactly the `HTTP_`-prefixed environ entries to their normalized header names
and values and excludes everything else, and it reproduces the repository's
test vector. -/
theorem C8_header_extraction :
    (∀ (environ : List (String × String)) (k v : String),
      (k, v) ∈ get_headers environ ↔
        ∃ raw, (raw, v) ∈ environ ∧ isHeaderKey raw = true ∧
          k = normalizeHeaderName raw) ∧
    get_headers rawTestEnviron =
      [("X-HTTP-METHOD-OVERRIDE", "PUT"),
       ("CONTENT-TYPE", "application/json"),
       ("USER-AGENT", "TestAgent/1.0")] := by
  constructor
  · intro environ k v
    unfold get_headers
    rw [List.mem_filterMap]
    constructor
    · rintro ⟨⟨rk, rv⟩, hmem, hf⟩
      split at hf
      · next hk =>
        injection hf with hf'
        cases hf'
        exact ⟨rk, hmem, hk, rfl⟩
      · cases hf
    · rintro ⟨raw, hmem, hk, rfl⟩
      refine ⟨(raw, v), hmem, ?_⟩
      rw [if_pos hk]
  · decide

/-- Witness for C8 at a concrete input: `HTTP_USER_AGENT` appears normalized
in the extracted mapping of the test environ. -/
theorem C8_header_extraction_witness :
    ("USER-AGENT", "TestAgent/1.0") ∈ get_headers rawTestEnviron :=
  (C8_header_extraction.1 rawTestEnviron "USER-AGENT" "TestAgent/1.0").mpr
    ⟨"HTTP_USER_AGENT", by decide, by decide, by decide⟩

/-- C1. The claim that the body stream's cursor is restored before extraction
returns fails on the code: `_get_override_method` reads the body through
werkzeug's form parser, which consumes `wsgi.input` without rewinding, and
nothing in the middleware seeks the stream back (unlike the behaviour the
repository's own tests assert for the absent `_get_method_from_form` helper).
Evaluated at a POST whose form body requests `PUT`: the body is inspected
(the hint `PUT` is found and applied), yet a full read after the pipeline
yields nothing instead of the original eighteen characters. -/
theorem C1_body_stream_not_restored :
    envFormPut.input.pos = 0 ∧
    get_override_method defaultConfig envFormPut = some "PUT" ∧
    (processEnviron defaultConfig envFormPut).requestMethod = some "PUT" ∧
    (processEnviron defaultConfig envFormPut).input.readRemaining = [] ∧
    envFormPut.input.readRemaining = "_method=PUT&name=x".data := by
  refine ⟨rfl, by decide, by decide, by decide, by decide⟩
